import Mathlib

/-!
Verification of the EvalFlow Streamlit client (`src/ui/app.py`).

The handler under the Run Evaluation button is embedded shallowly as a pure
function from an environment (uploaded file contents, the external
`clean_json` repair routine, the JSON decoder of the standard library, and
the remote service's behaviour) to the ordered list of observable effects
the script produces: progress-bar events, displayed messages, the POST
requests issued, and the report sections rendered.

Modelling decisions, all taken from the source:
- `st.stop()` is modelled as immediate termination of the script run, per
  its contract ("stops execution immediately"); the remainder of the
  handler after a stop contributes no effects.
- The two uploaded files are byte streams; the duplicated second pipeline
  block (app.py lines 307-457) re-reads them after the first block already
  consumed them, so those reads yield the empty string.
- `clean_json` lives outside `src/` (imported from `app.json_cleaner`), so
  it is a parameter of the environment.  Where a claim depends on its
  behaviour on the empty string, the spec's words ("an empty string is not
  a meaningful repair target") are taken as the hypothesis that repairing
  the empty string does not yield parseable JSON.
- `json.loads` (and `response.json()`, which decodes `response.text` the
  same way) is an environment parameter returning either a value or the
  decoder's error message (a `ValueError` in Python).
- Python `dict` access `d[k]` raises `KeyError(k)` when the key is absent;
  `str(KeyError(k))` is the key wrapped in single quotes.
- Fixed-point number formatting (`f"{x:.2f}"` etc.) is modelled exactly on
  rationals; no claim inspects rounding of non-representable values.
-/

/-- JSON values as produced by `json.loads`: the payloads and response
bodies the handler manipulates.  Numbers are carried as rationals. -/
inductive Json where
  | null
  | bool (b : Bool)
  | num (q : Rat)
  | str (s : String)
  | arr (xs : List Json)
  | obj (fields : List (String × Json))

/-- Python truthiness of a JSON-decoded value (`if x:`). -/
def Json.truthy : Json → Bool
  | .null => false
  | .bool b => b
  | .num q => q != 0
  | .str s => s != ""
  | .arr xs => !xs.isEmpty
  | .obj fs => !fs.isEmpty

/-- Key lookup in the association list of a decoded JSON object
(`json.loads` keeps one binding per key). -/
def lookupField : List (String × Json) → String → Option Json
  | [], _ => none
  | (k, v) :: rest, key => if k = key then some v else lookupField rest key

/-- Python `d[k]`: `none` models the raised exception (`KeyError` on a
dict with the key absent; a non-dict raises as well). -/
def Json.getField : Json → String → Option Json
  | .obj fs, k => lookupField fs k
  | _, _ => none

/-- A value acceptable to a `:.Nf` float format: numbers, and booleans
(which Python formats as integers).  `none` models the raised exception. -/
def Json.asNum : Json → Option Rat
  | .num q => some q
  | .bool b => some (if b then 1 else 0)
  | _ => none

/-- A value on which `len(x)` and slicing behave as string operations;
`none` models the exception raised for non-strings. -/
def Json.asStr : Json → Option String
  | .str s => some s
  | _ => none

/-- A single quote character, written via its code point. -/
def pyQuote : String := String.singleton (Char.ofNat 39)

/-- Best-effort rendering of a decoded value inside an f-string
(`str(x)` in Python); exact for strings, which is all the claims use. -/
def pyStr : Json → String
  | .str s => s
  | .null => "None"
  | .bool true => "True"
  | .bool false => "False"
  | .num q => if q.den = 1 then toString q.num else toString q
  | .arr _ => "[...]"
  | .obj _ => "\x7b...\x7d"

/-- Left-pad a digit string with zeros to the given width. -/
def padZeros (w : Nat) (s : String) : String :=
  String.mk (List.replicate (w - s.length) '0') ++ s

/-- Fixed-point formatting `f"{q:.precf}"` on exact rationals: the digits
of `floor (q * 10 ^ prec + 1 / 2)`, computed on numerator and
denominator. -/
def fmtFixed (prec : Nat) (q : Rat) : String :=
  let scaled : Int := Int.fdiv (2 * q.num * (10 ^ prec : Nat) + (q.den : Int)) (2 * (q.den : Int))
  let sign := if scaled < 0 then "-" else ""
  let n := scaled.natAbs
  sign ++ toString (n / 10 ^ prec) ++ "." ++ padZeros prec (toString (n % 10 ^ prec))

/-- Python `not s.strip()`: true when every character is whitespace. -/
def pyBlank (s : String) : Bool := s.data.all Char.isWhitespace

/-- Python `s.replace(a, b)` for single-character pattern and
replacement. -/
def replaceChar (a b : Char) (s : String) : String :=
  String.mk (s.data.map fun c => if c = a then b else c)

/-- String prefix test. -/
def strStarts (pre s : String) : Bool := pre.data.isPrefixOf s.data

/-- Python `str.title()` applied after `replace("_", " ")`: a letter is
uppercased when the previous character is not a letter, lowercased
otherwise. -/
def pyTitleAux : Bool → List Char → List Char
  | _, [] => []
  | prevAlpha, c :: rest =>
    if c.isAlpha then
      (if prevAlpha then c.toLower else c.toUpper) :: pyTitleAux true rest
    else
      c :: pyTitleAux false rest

/-- Python `str.title()`. -/
def pyTitle (s : String) : String := String.mk (pyTitleAux false s.data)

/-- Exceptions that can escape the report-rendering code of the handler
(all are caught by the bare `except Exception` at app.py line 303). -/
inductive Exc where
  | keyError (k : String)
  | typeError (m : String)

/-- Python `str(e)` for the exceptions above (`str(KeyError(k))` is the
key in single quotes). -/
def Exc.msg : Exc → String
  | .keyError k => pyQuote ++ k ++ pyQuote
  | .typeError m => m

/-- One row of the retrieved-context table (app.py lines 272-278). -/
structure CtxRow where
  idx : Nat
  sim : String
  url : Json
  text : String

/-- The observable effects of one script run, in order of occurrence. -/
inductive Effect where
  | errorMsg (s : String)
  | infoMsg (s : String)
  | warnMsg (s : String)
  | successMsg (s : String)
  | md (s : String)
  | progressCreate (pct : Nat) (label : String)
  | progressUpdate (pct : Nat) (label : String)
  | post (payload : Json)
  | scoresTable (rel comp acc : Json)
  | infoBox (j : Json)
  | promptBlock (j : Json)
  | metricsTable (latency cost : String)
  | halTable (xs : Json)
  | ctxTable (rows : List CtxRow)
  | ctxDetail (title urlLine textLine : String)
  | explEntry (title : String) (content : Json)
  | rawJson (j : Json)

/- ---- Messages (verbatim from app.py) ---- -/

def missingFilesMsg : String := "❌ Please upload both conversation.json and context.json"
def emptyConvMsg : String := "❌ Conversation file is empty. Please upload a valid JSON file."
def emptyCtxMsg : String := "❌ Context file is empty. Please upload a valid JSON file."
def jsonTipMsg : String := "💡 Tip: Make sure your JSON files are not empty and contain valid JSON data."
def jsonValErrMsg (m : String) : String := "⚠️ JSON Validation Error: " ++ m
def apiErrMsg (code : Nat) (body : String) : String :=
  "❌ API Error [" ++ toString code ++ "]: " ++ body
def backendErrMsg (m : String) : String := "🚨 Error connecting to backend: " ++ m
def errorOccurredLabel : String := "❌ Error occurred"
def fmtErrMsg : String := "unsupported operand for fixed-point format"
def iterErrMsg : String := "retrieved_context is not iterable as context items"
def itemsErrMsg : String := "explanations value has no attribute items"

/- ---- Report rendering (app.py lines 224-301) ---- -/

/-- Sequence two rendering steps: effects accumulate; the first raised
exception aborts the rest (it propagates to the bare handler). -/
def seqRender (a b : List Effect × Option Exc) : List Effect × Option Exc :=
  match a with
  | (es, none) => (es ++ b.1, b.2)
  | (es, some e) => (es, some e)

/-- Scores section (lines 227-236): header, then the three field accesses
in order inside the DataFrame literal. -/
def renderScores (result : Json) : List Effect × Option Exc :=
  let hdr := [Effect.md "### 📈 Evaluation Scores"]
  match result.getField "relevance_score" with
  | none => (hdr, some (.keyError "relevance_score"))
  | some rel =>
  match result.getField "completeness_score" with
  | none => (hdr, some (.keyError "completeness_score"))
  | some comp =>
  match result.getField "accuracy_score" with
  | none => (hdr, some (.keyError "accuracy_score"))
  | some acc => (hdr ++ [Effect.scoresTable rel comp acc], none)

/-- Generated-response section (lines 239-240). -/
def renderGenerated (result : Json) : List Effect × Option Exc :=
  let hdr := [Effect.md "### 💬 Generated Response"]
  match result.getField "generated_response" with
  | none => (hdr, some (.keyError "generated_response"))
  | some g => (hdr ++ [Effect.infoBox g], none)

/-- Prompt section (lines 243-245): the expander body `st.text(...)`. -/
def renderPrompt (result : Json) : List Effect × Option Exc :=
  let hdr := [Effect.md "### 🔤 Prompt Used for Generation"]
  match result.getField "prompt_used" with
  | none => (hdr, some (.keyError "prompt_used"))
  | some p => (hdr ++ [Effect.promptBlock p], none)

/-- Metrics section (lines 248-256): latency then cost, each accessed and
formatted in the order of the DataFrame literal. -/
def renderMetrics (result : Json) : List Effect × Option Exc :=
  let hdr := [Effect.md "### ⏱️ Performance Metrics"]
  match result.getField "latency_ms" with
  | none => (hdr, some (.keyError "latency_ms"))
  | some lv =>
  match lv.asNum with
  | none => (hdr, some (.typeError fmtErrMsg))
  | some ql =>
  match result.getField "cost_usd" with
  | none => (hdr, some (.keyError "cost_usd"))
  | some cv =>
  match cv.asNum with
  | none => (hdr, some (.typeError fmtErrMsg))
  | some qc =>
    (hdr ++ [Effect.metricsTable (fmtFixed 2 ql ++ " ms") ("$" ++ fmtFixed 4 qc)], none)

/-- Hallucinations section (lines 259-266). -/
def renderHallucinations (result : Json) : List Effect × Option Exc :=
  let hdr := [Effect.md "### ⚠️ Detected Hallucinations"]
  match result.getField "hallucinations" with
  | none => (hdr, some (.keyError "hallucinations"))
  | some h =>
    if h.truthy then (hdr ++ [Effect.halTable h], none)
    else (hdr ++ [Effect.successMsg "✅ No hallucinations detected"], none)

/-- One row of the context table (loop body, lines 273-278): similarity
access and format, then URL access with truthiness fallback, then text
access with the 100-character display truncation. -/
def mkRow (i : Nat) (ctx : Json) : Except Exc CtxRow :=
  match ctx.getField "similarity_score" with
  | none => .error (.keyError "similarity_score")
  | some sv =>
  match sv.asNum with
  | none => .error (.typeError fmtErrMsg)
  | some q =>
  match ctx.getField "source_url" with
  | none => .error (.keyError "source_url")
  | some u =>
  match ctx.getField "text" with
  | none => .error (.keyError "text")
  | some tv =>
  match tv.asStr with
  | none => .error (.typeError fmtErrMsg)
  | some t =>
    .ok { idx := i
          sim := fmtFixed 4 q
          url := if u.truthy then u else .str "N/A"
          text := if t.length > 100 then t.take 100 ++ "..." else t }

/-- The context-table loop (`enumerate(..., 1)`): rows accumulate until
the first exception, which discards the partial list and propagates. -/
def buildCtxRows (i : Nat) : List Json → Except Exc (List CtxRow)
  | [] => .ok []
  | c :: cs =>
    match mkRow i c with
    | .error e => .error e
    | .ok row =>
      match buildCtxRows (i + 1) cs with
      | .error e => .error e
      | .ok rows => .ok (row :: rows)

/-- One full-details expander (lines 284-287): title with the similarity
score, the URL line with the truthiness fallback, and the full text. -/
def mkDetail (i : Nat) (ctx : Json) : Except Exc Effect :=
  match ctx.getField "similarity_score" with
  | none => .error (.keyError "similarity_score")
  | some sv =>
  match sv.asNum with
  | none => .error (.typeError fmtErrMsg)
  | some q =>
  match ctx.getField "source_url" with
  | none => .error (.keyError "source_url")
  | some u =>
  match ctx.getField "text" with
  | none => .error (.keyError "text")
  | some tv =>
    .ok (.ctxDetail ("Context #" ++ toString i ++ " (Similarity: " ++ fmtFixed 4 q ++ ")")
          ("**Source URL:** " ++ (if u.truthy then pyStr u else "N/A"))
          ("**Text:** " ++ pyStr tv))

/-- The full-details loop.  It repeats the accesses of the table loop, so
after `buildCtxRows` succeeded it cannot fail. -/
def buildCtxDetails (i : Nat) : List Json → Except Exc (List Effect)
  | [] => .ok []
  | c :: cs =>
    match mkDetail i c with
    | .error e => .error e
    | .ok eff =>
      match buildCtxDetails (i + 1) cs with
      | .error e => .error e
      | .ok effs => .ok (eff :: effs)

/-- Retrieved-context section (lines 269-289). -/
def renderContext (result : Json) : List Effect × Option Exc :=
  let hdr := [Effect.md "### 🔍 Retrieved Context (Ranked by Similarity)"]
  match result.getField "retrieved_context" with
  | none => (hdr, some (.keyError "retrieved_context"))
  | some rc =>
    if rc.truthy then
      match rc with
      | .arr xs =>
        match buildCtxRows 1 xs with
        | .error e => (hdr, some e)
        | .ok rows =>
          let hdr2 := hdr ++ [Effect.ctxTable rows, Effect.md "#### Full Context Details"]
          match buildCtxDetails 1 xs with
          | .error e => (hdr2, some e)
          | .ok effs => (hdr2 ++ effs, none)
      | _ => (hdr, some (.typeError iterErrMsg))
    else (hdr ++ [Effect.warnMsg "⚠️ No context retrieved"], none)

/-- The explanations loop (lines 294-296): one expander per key, titled
with the decorated, underscore-to-space, title-cased key. -/
def explEntries : List (String × Json) → List Effect
  | [] => []
  | (k, v) :: rest =>
    .explEntry ("📄 " ++ pyTitle (replaceChar '_' ' ' k)) v :: explEntries rest

/-- Explanations section (lines 292-296): the header is emitted before
the truthiness test on the mapping. -/
def renderExplanations (result : Json) : List Effect × Option Exc :=
  let hdr := [Effect.md "### 📝 Evaluation Explanations"]
  match result.getField "explanations" with
  | none => (hdr, some (.keyError "explanations"))
  | some ex =>
    if ex.truthy then
      match ex with
      | .obj kvs => (hdr ++ explEntries kvs, none)
      | _ => (hdr, some (.typeError itemsErrMsg))
    else (hdr, none)

/-- Raw-JSON section (lines 299-301): cannot fail. -/
def renderRaw (result : Json) : List Effect × Option Exc :=
  ([Effect.md "### 📋 Raw JSON Response", Effect.rawJson result], none)

/-- The whole report display (lines 224-301): subheader, then the eight
sections in source order; the first exception aborts the rest. -/
def renderReport (result : Json) : List Effect × Option Exc :=
  seqRender ([Effect.md "📊 Evaluation Report"], none) <|
  seqRender (renderScores result) <|
  seqRender (renderGenerated result) <|
  seqRender (renderPrompt result) <|
  seqRender (renderMetrics result) <|
  seqRender (renderHallucinations result) <|
  seqRender (renderContext result) <|
  seqRender (renderExplanations result) (renderRaw result)

/- ---- The remote call and the surrounding try block ---- -/

/-- What `client.post(API_URL, json=payload)` does: either a transport
exception with its message, or a response with status code and body. -/
inductive PostOutcome where
  | transportError (m : String)
  | response (statusCode : Nat) (text : String)

/-- Provider radio selection (sidebar). -/
inductive Provider where
  | openai
  | gemini

/-- `"openai" if provider == "OpenAI" else "gemini"` (line 174). -/
def modelType : Provider → String
  | .openai => "openai"
  | .gemini => "gemini"

/-- The progress events before the POST (lines 182-196): the bar is
created at 0, then updated to 10 and 20, then the request is sent. -/
def preTrace (payload : Json) : List Effect :=
  [Effect.progressCreate 0 "🔄 Starting evaluation...",
   Effect.progressUpdate 10 "📂 Parsing JSON files... (10%)",
   Effect.progressUpdate 20 "📡 Sending request to API... (20%)",
   Effect.post payload]

/-- The progress update after a response arrives (lines 200-201). -/
def recvTrace : List Effect :=
  [Effect.progressUpdate 30 "✔️ Received response from API... (30%)"]

/-- The updates of a decoded response (lines 210-218): 50, 75, the
success banner, then 100 — all before report rendering starts. -/
def procTrace : List Effect :=
  [Effect.progressUpdate 50 "🔄 Processing results... (50%)",
   Effect.progressUpdate 75 "🎨 Rendering evaluation report... (75%)",
   Effect.successMsg "✅ Evaluation Completed Successfully!",
   Effect.progressUpdate 100 "✅ Complete! (100%)"]

/-- The generic exception handler (lines 303-305): the backend error with
the exception text, then the reset of the progress bar to 0. -/
def errTrace (m : String) : List Effect :=
  [Effect.errorMsg (backendErrMsg m), Effect.progressUpdate 0 errorOccurredLabel]

/-- The try block around one API call and report rendering (app.py lines
181-305, duplicated verbatim at 333-457).  `loads` decodes a response
body (`response.json()` parses `response.text`).  Returns the effects and
whether the block reached `st.stop()` (the non-200 branch); a caught
exception shows the backend error, resets the progress bar to 0 and lets
the script continue. -/
def apiBlock (loads : String → Except String Json) (outcome : PostOutcome)
    (payload : Json) : List Effect × Bool :=
  match outcome with
  | .transportError m => (preTrace payload ++ errTrace m, false)
  | .response code text =>
    if code ≠ 200 then
      (preTrace payload ++ recvTrace ++ [.errorMsg (apiErrMsg code text)], true)
    else
      match loads text with
      | .error m => (preTrace payload ++ recvTrace ++ errTrace m, false)
      | .ok result =>
        match renderReport result with
        | (res, none) => (preTrace payload ++ recvTrace ++ procTrace ++ res, false)
        | (res, some e) =>
            (preTrace payload ++ recvTrace ++ procTrace ++ res ++ errTrace e.msg, false)

/-- The environment of one activation: the decoded contents of the two
uploads (absent when not uploaded), the sidebar configuration, the
external `clean_json` routine, the JSON decoder, and the service's
behaviour for the first and (hypothetical) second POST. -/
structure Env where
  convFile : Option String
  ctxFile : Option String
  provider : Provider
  modelName : String
  cleanJson : String → String
  jsonLoads : String → Except String Json
  post1 : PostOutcome
  post2 : PostOutcome

/-- The duplicated second pipeline block (lines 307-457).  Both upload
checks pass (the run only reaches here with both files present), and the
re-reads of the exhausted upload streams yield empty strings, which go to
`clean_json` and `json.loads` with no blank check; a `ValueError` there
shows its message and stops.  The second payload carries no model fields
(lines 325-328). -/
def block2 (env : Env) : List Effect :=
  match env.jsonLoads (env.cleanJson "") with
  | .error m => [.errorMsg ("⚠️ " ++ m)]
  | .ok cj2 =>
    match env.jsonLoads (env.cleanJson "") with
    | .error m => [.errorMsg ("⚠️ " ++ m)]
    | .ok xj2 =>
      (apiBlock env.jsonLoads env.post2
        (Json.obj [("conversation", cj2), ("context_vectors", xj2)])).1

/-- One activation of the Run Evaluation button (app.py lines 133-457):
upload presence check, blank checks, repair-and-parse, payload build, the
first API block, then — unless that block stopped — the duplicated second
block. -/
def runApp (env : Env) : List Effect :=
  match env.convFile, env.ctxFile with
  | some conv, some ctx =>
    if pyBlank conv then [.errorMsg emptyConvMsg]
    else if pyBlank ctx then [.errorMsg emptyCtxMsg]
    else
      match env.jsonLoads (env.cleanJson conv) with
      | .error m => [.errorMsg (jsonValErrMsg m), .infoMsg jsonTipMsg]
      | .ok cj =>
        match env.jsonLoads (env.cleanJson ctx) with
        | .error m => [.errorMsg (jsonValErrMsg m), .infoMsg jsonTipMsg]
        | .ok xj =>
          let payload := Json.obj
            [("conversation", cj), ("context_vectors", xj),
             ("model_type", .str (modelType env.provider)),
             ("model_name", .str env.modelName)]
          let res := apiBlock env.jsonLoads env.post1 payload
          if res.2 then res.1 else res.1 ++ block2 env
  | _, _ => [.errorMsg missingFilesMsg]

/- ---- Observables used in the claims ---- -/

/-- The percentage carried by a progress event. -/
def Effect.progressPct : Effect → Option Nat
  | .progressCreate p _ => some p
  | .progressUpdate p _ => some p
  | _ => none

/-- The sequence of progress percentages emitted by a run. -/
def progressSeq (t : List Effect) : List Nat := t.filterMap Effect.progressPct

def Effect.isPost : Effect → Bool
  | .post _ => true
  | _ => false

/-- Number of POST requests issued to the evaluation service. -/
def countPosts (t : List Effect) : Nat := (t.filter Effect.isPost).length

def Effect.isErrorMsg : Effect → Bool
  | .errorMsg _ => true
  | _ => false

def Effect.isErrEq (s : String) : Effect → Bool
  | .errorMsg m => m == s
  | _ => false

def Effect.isMdEq (s : String) : Effect → Bool
  | .md m => m == s
  | _ => false

/-- The explicit reset of the progress bar to 0 in the error handler. -/
def Effect.isReset : Effect → Bool
  | .progressUpdate 0 _ => true
  | _ => false

def Effect.isScoresTable : Effect → Bool
  | .scoresTable _ _ _ => true
  | _ => false

def Effect.isMetricsTable : Effect → Bool
  | .metricsTable _ _ => true
  | _ => false

def Effect.isCtxTable : Effect → Bool
  | .ctxTable _ => true
  | _ => false

def Effect.isCtxDetail : Effect → Bool
  | .ctxDetail _ _ _ => true
  | _ => false

def Effect.isExplEntry : Effect → Bool
  | .explEntry _ _ => true
  | _ => false

def Effect.isRawJson : Effect → Bool
  | .rawJson _ => true
  | _ => false

def Effect.isInfoBox : Effect → Bool
  | .infoBox _ => true
  | _ => false

def Effect.isPromptBlock : Effect → Bool
  | .promptBlock _ => true
  | _ => false

def Effect.isHalTable : Effect → Bool
  | .halTable _ => true
  | _ => false

/-- An EmptyFile validation error (either upload blank). -/
def Effect.isEmptyFileErr : Effect → Bool
  | .errorMsg s => s == emptyConvMsg || s == emptyCtxMsg
  | _ => false

/-- A MalformedJson validation error surfaced by the first block. -/
def Effect.isJsonValidationErr : Effect → Bool
  | .errorMsg s => strStarts "⚠️ JSON Validation Error:" s
  | _ => false

/-- Effects emitted by report rendering: everything except error
messages, parse-tip messages, progress events and POSTs. -/
def Effect.isDisplay : Effect → Bool
  | .errorMsg _ => false
  | .infoMsg _ => false
  | .progressCreate _ _ => false
  | .progressUpdate _ _ => false
  | .post _ => false
  | _ => true

/-- The fixed stage percentages of the progress contract. -/
def ladderPcts : List Nat := [10, 20, 30, 50, 75, 100]

/-- Adjacent progress values never decrease except to an explicit 0. -/
def chainOk : List Nat → Bool
  | p :: q :: rest => (decide (p ≤ q) || q == 0) && chainOk (q :: rest)
  | _ => true

/-- Every emitted percentage is a ladder stage or a reset/start 0. -/
def memOk (l : List Nat) : Bool := l.all fun p => p == 0 || ladderPcts.contains p

/-- The progress-sequence invariant of the claims. -/
def okSeq (l : List Nat) : Bool := memOk l && chainOk l

def Effect.detailUrlLine : Effect → Option String
  | .ctxDetail _ u _ => some u
  | _ => none

def Effect.detailTextLine : Effect → Option String
  | .ctxDetail _ _ t => some t
  | _ => none

/- ---- Concrete sample data for evaluating the model ---- -/

/-- The message of Python json.loads on empty input. -/
def expectValueMsg : String := "Expecting value: line 1 column 1 (char 0)"

/-- A 150-character context text. -/
def longText : String := String.mk (List.replicate 150 'a')

/-- A context item whose text has length 150. -/
def ctxItem150 : Json := Json.obj
  [("text", .str longText), ("source_url", .str "http://src"),
   ("similarity_score", .num 1)]

/-- A response body with every required field present. -/
def fullReportJson : Json := Json.obj
  [("relevance_score", .num 8), ("completeness_score", .num 7),
   ("accuracy_score", .num 9), ("generated_response", .str "generated"),
   ("prompt_used", .str "prompt"), ("latency_ms", .num 12),
   ("cost_usd", .num 1), ("hallucinations", .arr []),
   ("retrieved_context", .arr [ctxItem150]),
   ("explanations", .obj [])]

/-- A 2xx body whose JSON lacks `latency_ms` (earlier fields present). -/
def reportMissingLatency : Json := Json.obj
  [("relevance_score", .num 8), ("completeness_score", .num 7),
   ("accuracy_score", .num 9), ("generated_response", .str "generated"),
   ("prompt_used", .str "prompt")]

/-- A concrete instantiation of the JSON decoder for witnesses: a partial
decoder mapping the bodies used in the sample environments and failing on
everything else with the stdlib message (in particular on the empty
string, as `json.loads` does). -/
def sampleLoads : String → Except String Json := fun s =>
  if s = "BODY" then .ok fullReportJson
  else if s = "MISSING" then .ok reportMissingLatency
  else if s = "created" then .ok fullReportJson
  else if s = "{}" then .ok (Json.obj [])
  else .error expectValueMsg

/-- A sample environment with both files uploaded and valid; the repair
routine is the identity and the service answers 200 with a full report. -/
def envOk : Env :=
  { convFile := some "{}", ctxFile := some "{}", provider := .openai,
    modelName := "gpt-4o-mini", cleanJson := id, jsonLoads := sampleLoads,
    post1 := .response 200 "BODY", post2 := .response 200 "BODY" }

/-- The conversation upload is missing. -/
def envMissingFile : Env := { envOk with convFile := none }

/-- The service answers 500 with body "internal error". -/
def env500 : Env := { envOk with post1 := .response 500 "internal error" }

/-- The service answers 200 but the body lacks `latency_ms`. -/
def envMissingLat : Env := { envOk with post1 := .response 200 "MISSING" }

/-- A transport failure whose message happens to equal the printed
`KeyError` for `latency_ms`. -/
def envTransportQ : Env :=
  { envOk with post1 := .transportError (pyQuote ++ "latency_ms" ++ pyQuote) }

/-- The service answers 201 (a 2xx status) with a decodable full body. -/
def env201 : Env := { envOk with post1 := .response 201 "created" }

/-- The conversation upload decodes to whitespace only. -/
def envBlankConv : Env := { envOk with convFile := some "   " }

/-- A plain transport failure. -/
def envTransport : Env := { envOk with post1 := .transportError "Connection refused" }


/-- A context item with a present but empty source_url. -/
def ctxEmptyUrl : Json := Json.obj
  [("similarity_score", .num 1), ("source_url", .str ""), ("text", .str "abc")]

/-- The table row produced for `ctxItem150`. -/
def rows150 : List CtxRow :=
  [{ idx := 1, sim := "1.0000", url := .str "http://src",
     text := String.mk (List.replicate 100 'a') ++ "..." }]

/-- The full-details effect produced for `ctxItem150`. -/
def effs150 : List Effect :=
  [.ctxDetail "Context #1 (Similarity: 1.0000)" "**Source URL:** http://src"
    ("**Text:** " ++ longText)]


/- ---- Generic helper lemmas about traces ---- -/

theorem progressSeq_append (a b : List Effect) :
    progressSeq (a ++ b) = progressSeq a ++ progressSeq b := by
  simp [progressSeq, List.filterMap_append]

theorem countPosts_append (a b : List Effect) :
    countPosts (a ++ b) = countPosts a + countPosts b := by
  simp [countPosts, List.filter_append]

theorem isDisplay_pct {e : Effect} (h : e.isDisplay = true) : e.progressPct = none := by
  cases e <;> simp_all [Effect.isDisplay, Effect.progressPct]

theorem isDisplay_not_post {e : Effect} (h : e.isDisplay = true) : e.isPost = false := by
  cases e <;> simp_all [Effect.isDisplay, Effect.isPost]

theorem isDisplay_not_err {e : Effect} (h : e.isDisplay = true) : e.isErrorMsg = false := by
  cases e <;> simp_all [Effect.isDisplay, Effect.isErrorMsg]

theorem progressSeq_of_display {t : List Effect} (h : t.all Effect.isDisplay = true) :
    progressSeq t = [] := by
  simp only [progressSeq, List.filterMap_eq_nil]
  intro e he
  exact isDisplay_pct (by simpa using (List.all_eq_true.mp h e he))

theorem countPosts_of_display {t : List Effect} (h : t.all Effect.isDisplay = true) :
    countPosts t = 0 := by
  simp only [countPosts, List.length_eq_zero, List.filter_eq_nil]
  intro e he
  exact fun hp => by simp [isDisplay_not_post (List.all_eq_true.mp h e he)] at hp

theorem no_errorMsg_of_display {t : List Effect} (h : t.all Effect.isDisplay = true) :
    t.any Effect.isErrorMsg = false := by
  rw [Bool.eq_false_iff]
  intro hany
  obtain ⟨e, he, hp⟩ := List.any_eq_true.mp hany
  have := isDisplay_not_err (List.all_eq_true.mp h e he)
  simp_all

theorem errEq_isErrorMsg {s : String} {e : Effect} (h : Effect.isErrEq s e = true) :
    e.isErrorMsg = true := by
  cases e <;> simp_all [Effect.isErrEq, Effect.isErrorMsg]

theorem no_errEq_of_display {t : List Effect} (h : t.all Effect.isDisplay = true)
    (s : String) : t.any (Effect.isErrEq s) = false := by
  rw [Bool.eq_false_iff]
  intro hany
  obtain ⟨e, he, hp⟩ := List.any_eq_true.mp hany
  have h1 := errEq_isErrorMsg hp
  have := isDisplay_not_err (List.all_eq_true.mp h e he)
  simp_all

/- ---- Display-only nature of the rendering code ---- -/

theorem seqRender_all {P : Effect → Bool} {a b : List Effect × Option Exc}
    (ha : a.1.all P = true) (hb : b.1.all P = true) :
    (seqRender a b).1.all P = true := by
  rcases a with ⟨es, exc⟩
  cases exc <;> simp_all [seqRender, List.all_append]

theorem buildCtxDetails_all {P : Effect → Bool}
    (hP : ∀ i c eff, mkDetail i c = .ok eff → P eff = true) :
    ∀ (xs : List Json) (i : Nat) (effs : List Effect),
      buildCtxDetails i xs = .ok effs → effs.all P = true := by
  intro xs
  induction xs with
  | nil => intro i effs h; simp [buildCtxDetails] at h; subst h; simp
  | cons c cs ih =>
    intro i effs h
    simp only [buildCtxDetails] at h
    cases hm : mkDetail i c with
    | error e => rw [hm] at h; exact absurd h (by simp)
    | ok eff =>
      rw [hm] at h
      cases hr : buildCtxDetails (i + 1) cs with
      | error e => rw [hr] at h; exact absurd h (by simp)
      | ok effs2 =>
        rw [hr] at h
        simp only [Except.ok.injEq] at h
        subst h
        simp [hP i c eff hm, ih (i + 1) effs2 hr]

theorem mkDetail_isCtxDetail {i : Nat} {c : Json} {eff : Effect}
    (h : mkDetail i c = .ok eff) : eff.isCtxDetail = true := by
  unfold mkDetail at h
  repeat' split at h
  all_goals (first | (injection h with h; subst h; rfl) | (injection h))

theorem ctxDetail_display {e : Effect} (h : e.isCtxDetail = true) : e.isDisplay = true := by
  cases e <;> simp_all [Effect.isCtxDetail, Effect.isDisplay]

theorem renderScores_display (r : Json) : (renderScores r).1.all Effect.isDisplay = true := by
  unfold renderScores
  repeat' split
  all_goals simp [Effect.isDisplay]

theorem renderGenerated_display (r : Json) : (renderGenerated r).1.all Effect.isDisplay = true := by
  unfold renderGenerated
  repeat' split
  all_goals simp [Effect.isDisplay]

theorem renderPrompt_display (r : Json) : (renderPrompt r).1.all Effect.isDisplay = true := by
  unfold renderPrompt
  repeat' split
  all_goals simp [Effect.isDisplay]

theorem renderMetrics_display (r : Json) : (renderMetrics r).1.all Effect.isDisplay = true := by
  unfold renderMetrics
  repeat' split
  all_goals simp [Effect.isDisplay]

theorem renderHallucinations_display (r : Json) :
    (renderHallucinations r).1.all Effect.isDisplay = true := by
  unfold renderHallucinations
  repeat' split
  all_goals simp [Effect.isDisplay]

theorem buildCtxDetails_display {xs : List Json} {i : Nat} {effs : List Effect}
    (h : buildCtxDetails i xs = .ok effs) : effs.all Effect.isDisplay = true :=
  buildCtxDetails_all (fun i c eff hm => ctxDetail_display (mkDetail_isCtxDetail hm)) xs i effs h

theorem renderContext_display (r : Json) : (renderContext r).1.all Effect.isDisplay = true := by
  unfold renderContext
  cases hrc : r.getField "retrieved_context" with
  | none => simp [Effect.isDisplay]
  | some rc =>
    by_cases ht : rc.truthy = true
    · simp only [ht, if_true]
      cases rc with
      | arr xs =>
        cases hr : buildCtxRows 1 xs with
        | error e => simp [hr, Effect.isDisplay]
        | ok rows =>
          cases hd : buildCtxDetails 1 xs with
          | error e => simp [hr, hd, Effect.isDisplay]
          | ok effs =>
            have hall := buildCtxDetails_display hd
            simp only [List.all_eq_true] at hall
            simp [hr, hd, List.all_append, Effect.isDisplay]
            intro x hx
            simpa [Effect.isDisplay] using hall x hx
      | null => simp [Effect.isDisplay]
      | bool b => simp [Effect.isDisplay]
      | num q => simp [Effect.isDisplay]
      | str s => simp [Effect.isDisplay]
      | obj fs => simp [Effect.isDisplay]
    · simp [ht, Effect.isDisplay, List.all_append]

theorem explEntries_display (kvs : List (String × Json)) :
    (explEntries kvs).all Effect.isDisplay = true := by
  induction kvs with
  | nil => simp [explEntries]
  | cons kv rest ih => simp [explEntries, Effect.isDisplay, ih]

theorem renderExplanations_display (r : Json) :
    (renderExplanations r).1.all Effect.isDisplay = true := by
  unfold renderExplanations
  repeat' split
  all_goals simp_all [Effect.isDisplay, List.all_append, explEntries_display]

theorem renderRaw_display (r : Json) : (renderRaw r).1.all Effect.isDisplay = true := by
  simp [renderRaw, Effect.isDisplay]

theorem renderReport_display (r : Json) : (renderReport r).1.all Effect.isDisplay = true := by
  unfold renderReport
  apply seqRender_all (by simp [Effect.isDisplay])
  apply seqRender_all (renderScores_display r)
  apply seqRender_all (renderGenerated_display r)
  apply seqRender_all (renderPrompt_display r)
  apply seqRender_all (renderMetrics_display r)
  apply seqRender_all (renderHallucinations_display r)
  apply seqRender_all (renderContext_display r)
  exact seqRender_all (renderExplanations_display r) (renderRaw_display r)

/- ---- Disjointness of the error-message families ---- -/

theorem backendErrMsg_ne_apiErrMsg (m : String) (c : Nat) (t : String) :
    backendErrMsg m ≠ apiErrMsg c t := by
  intro h
  have h2 : (backendErrMsg m).data.head? = (apiErrMsg c t).data.head? := by rw [h]
  rw [show (backendErrMsg m).data.head? = some '🚨' from rfl,
      show (apiErrMsg c t).data.head? = some '❌' from rfl] at h2
  exact absurd (Option.some.inj h2) (by decide)

/- ---- No raw-JSON section when rendering fails ---- -/

theorem seqRender_fail_noRaw {a b : List Effect × Option Exc}
    (ha : a.1.all (fun e => !e.isRawJson) = true)
    (hb : b.2 ≠ none → b.1.all (fun e => !e.isRawJson) = true) :
    (seqRender a b).2 ≠ none → (seqRender a b).1.all (fun e => !e.isRawJson) = true := by
  rcases a with ⟨es, exc⟩
  cases exc with
  | none =>
    intro h2
    simp only [seqRender] at h2 ⊢
    simp only [List.all_append]
    exact by simp [ha, hb h2]
  | some e => intro _; simpa [seqRender] using ha

theorem renderScores_noRaw (r : Json) :
    (renderScores r).1.all (fun e => !e.isRawJson) = true := by
  unfold renderScores
  repeat' split
  all_goals simp [Effect.isRawJson]

theorem renderGenerated_noRaw (r : Json) :
    (renderGenerated r).1.all (fun e => !e.isRawJson) = true := by
  unfold renderGenerated
  repeat' split
  all_goals simp [Effect.isRawJson]

theorem renderPrompt_noRaw (r : Json) :
    (renderPrompt r).1.all (fun e => !e.isRawJson) = true := by
  unfold renderPrompt
  repeat' split
  all_goals simp [Effect.isRawJson]

theorem renderMetrics_noRaw (r : Json) :
    (renderMetrics r).1.all (fun e => !e.isRawJson) = true := by
  unfold renderMetrics
  repeat' split
  all_goals simp [Effect.isRawJson]

theorem renderHallucinations_noRaw (r : Json) :
    (renderHallucinations r).1.all (fun e => !e.isRawJson) = true := by
  unfold renderHallucinations
  repeat' split
  all_goals simp [Effect.isRawJson]

theorem ctxDetail_noRaw {e : Effect} (h : e.isCtxDetail = true) : (!e.isRawJson) = true := by
  cases e <;> simp_all [Effect.isCtxDetail, Effect.isRawJson]

theorem renderContext_noRaw (r : Json) :
    (renderContext r).1.all (fun e => !e.isRawJson) = true := by
  unfold renderContext
  cases hrc : r.getField "retrieved_context" with
  | none => simp [Effect.isRawJson]
  | some rc =>
    by_cases ht : rc.truthy = true
    · simp only [ht, if_true]
      cases rc with
      | arr xs =>
        cases hr : buildCtxRows 1 xs with
        | error e => simp [hr, Effect.isRawJson]
        | ok rows =>
          cases hd : buildCtxDetails 1 xs with
          | error e => simp [hr, hd, Effect.isRawJson]
          | ok effs =>
            have hall := buildCtxDetails_all
              (fun i c eff hm => ctxDetail_noRaw (mkDetail_isCtxDetail hm)) xs 1 effs hd
            simp only [List.all_eq_true] at hall
            simp [hr, hd, List.all_append, Effect.isRawJson]
            intro x hx
            simpa [Effect.isRawJson] using hall x hx
      | null => simp [Effect.isRawJson]
      | bool b => simp [Effect.isRawJson]
      | num q => simp [Effect.isRawJson]
      | str s => simp [Effect.isRawJson]
      | obj fs => simp [Effect.isRawJson]
    · simp [ht, Effect.isRawJson, List.all_append]

theorem explEntries_noRaw (kvs : List (String × Json)) :
    (explEntries kvs).all (fun e => !e.isRawJson) = true := by
  induction kvs with
  | nil => simp [explEntries]
  | cons kv rest ih =>
    simp only [explEntries, List.all_cons, Bool.and_eq_true]
    exact ⟨by simp [Effect.isRawJson], ih⟩

theorem renderExplanations_noRaw (r : Json) :
    (renderExplanations r).1.all (fun e => !e.isRawJson) = true := by
  unfold renderExplanations
  cases hex : r.getField "explanations" with
  | none => simp [Effect.isRawJson]
  | some ex =>
    by_cases ht : ex.truthy = true
    · simp only [ht, if_true]
      cases ex with
      | obj kvs =>
        have hall := explEntries_noRaw kvs
        simp only [List.all_eq_true] at hall
        simp [List.all_append, Effect.isRawJson]
        intro x hx
        simpa [Effect.isRawJson] using hall x hx
      | null => simp [Effect.isRawJson]
      | bool b => simp [Effect.isRawJson]
      | num q => simp [Effect.isRawJson]
      | str s => simp [Effect.isRawJson]
      | arr xs => simp [Effect.isRawJson]
    · simp [ht, Effect.isRawJson]

theorem renderReport_fail_noRaw (r : Json) (h : (renderReport r).2 ≠ none) :
    (renderReport r).1.all (fun e => !e.isRawJson) = true := by
  revert h
  unfold renderReport
  apply seqRender_fail_noRaw (by simp [Effect.isRawJson])
  intro h
  revert h
  apply seqRender_fail_noRaw (renderScores_noRaw r)
  intro h
  revert h
  apply seqRender_fail_noRaw (renderGenerated_noRaw r)
  intro h
  revert h
  apply seqRender_fail_noRaw (renderPrompt_noRaw r)
  intro h
  revert h
  apply seqRender_fail_noRaw (renderMetrics_noRaw r)
  intro h
  revert h
  apply seqRender_fail_noRaw (renderHallucinations_noRaw r)
  intro h
  revert h
  apply seqRender_fail_noRaw (renderContext_noRaw r)
  intro h
  revert h
  apply seqRender_fail_noRaw (renderExplanations_noRaw r)
  intro h
  exact absurd rfl h

theorem any_false_of_all_not {p : Effect → Bool} {t : List Effect}
    (h : t.all (fun e => !p e) = true) : t.any p = false := by
  rw [Bool.eq_false_iff]
  intro ha
  obtain ⟨e, he, hp⟩ := List.any_eq_true.mp ha
  have := List.all_eq_true.mp h e he
  simp_all

/- ---- Branch characterizations of one activation ---- -/

theorem runApp_noConv {env : Env} (h : env.convFile = none) :
    runApp env = [.errorMsg missingFilesMsg] := by
  cases hx : env.ctxFile <;> simp [runApp, h, hx]

theorem runApp_noCtx {env : Env} {c : String} (h : env.convFile = some c)
    (hx : env.ctxFile = none) : runApp env = [.errorMsg missingFilesMsg] := by
  simp [runApp, h, hx]

theorem runApp_blankConv {env : Env} {c x : String} (hc : env.convFile = some c)
    (hx : env.ctxFile = some x) (hb : pyBlank c = true) :
    runApp env = [.errorMsg emptyConvMsg] := by
  simp [runApp, hc, hx, hb]

theorem runApp_blankCtx {env : Env} {c x : String} (hc : env.convFile = some c)
    (hx : env.ctxFile = some x) (hbc : pyBlank c = false) (hbx : pyBlank x = true) :
    runApp env = [.errorMsg emptyCtxMsg] := by
  simp [runApp, hc, hx, hbc, hbx]

theorem runApp_parseFailConv {env : Env} {c x m : String} (hc : env.convFile = some c)
    (hx : env.ctxFile = some x) (hbc : pyBlank c = false) (hbx : pyBlank x = false)
    (hj : env.jsonLoads (env.cleanJson c) = .error m) :
    runApp env = [.errorMsg (jsonValErrMsg m), .infoMsg jsonTipMsg] := by
  simp [runApp, hc, hx, hbc, hbx, hj]

theorem runApp_parseFailCtx {env : Env} {c x m : String} {cj : Json}
    (hc : env.convFile = some c) (hx : env.ctxFile = some x)
    (hbc : pyBlank c = false) (hbx : pyBlank x = false)
    (hjc : env.jsonLoads (env.cleanJson c) = .ok cj)
    (hj : env.jsonLoads (env.cleanJson x) = .error m) :
    runApp env = [.errorMsg (jsonValErrMsg m), .infoMsg jsonTipMsg] := by
  simp [runApp, hc, hx, hbc, hbx, hjc, hj]

theorem runApp_valid {env : Env} {c x : String} {cj xj : Json}
    (hc : env.convFile = some c) (hx : env.ctxFile = some x)
    (hbc : pyBlank c = false) (hbx : pyBlank x = false)
    (hjc : env.jsonLoads (env.cleanJson c) = .ok cj)
    (hjx : env.jsonLoads (env.cleanJson x) = .ok xj) :
    runApp env =
      (if (apiBlock env.jsonLoads env.post1 (Json.obj
            [("conversation", cj), ("context_vectors", xj),
             ("model_type", .str (modelType env.provider)),
             ("model_name", .str env.modelName)])).2 then
        (apiBlock env.jsonLoads env.post1 (Json.obj
            [("conversation", cj), ("context_vectors", xj),
             ("model_type", .str (modelType env.provider)),
             ("model_name", .str env.modelName)])).1
       else
        (apiBlock env.jsonLoads env.post1 (Json.obj
            [("conversation", cj), ("context_vectors", xj),
             ("model_type", .str (modelType env.provider)),
             ("model_name", .str env.modelName)])).1 ++ block2 env) := by
  simp [runApp, hc, hx, hbc, hbx, hjc, hjx]

theorem block2_fail {env : Env} {em : String}
    (h : env.jsonLoads (env.cleanJson "") = .error em) :
    block2 env = [.errorMsg ("⚠️ " ++ em)] := by
  simp [block2, h]

/-- Every execution of the try block around the API call issues exactly
one POST request. -/
theorem apiBlock_posts (loads : String → Except String Json) (o : PostOutcome) (p : Json) :
    countPosts (apiBlock loads o p).1 = 1 := by
  unfold apiBlock
  cases o with
  | transportError m => simp [countPosts, Effect.isPost, preTrace, errTrace]
  | response code text =>
    by_cases hcode : code = 200
    · subst hcode
      simp only [ne_eq, not_true_eq_false, if_false, reduceIte]
      cases hl : loads text with
      | error m => simp [hl, countPosts, Effect.isPost, preTrace, recvTrace, errTrace]
      | ok result =>
        rcases hr : renderReport result with ⟨res, exc⟩
        have hres : res.all Effect.isDisplay = true := by
          have := renderReport_display result
          rw [hr] at this
          exact this
        have hnil : List.filter Effect.isPost res = [] := by
          have := countPosts_of_display hres
          simpa [countPosts, List.length_eq_zero] using this
        cases exc with
        | none =>
          simp [hl, hr, countPosts, List.filter_append, hnil, Effect.isPost,
            preTrace, recvTrace, procTrace]
        | some e =>
          simp [hl, hr, countPosts, List.filter_append, hnil, Effect.isPost,
            preTrace, recvTrace, procTrace, errTrace]
    · simp [hcode, countPosts, Effect.isPost, preTrace, recvTrace]

/- ---- Claim theorems ---- -/

/-- C1: for every activation with both files uploaded and valid, exactly
one POST request is issued to the evaluation service.  The duplicated
second pipeline block re-parses the exhausted (hence empty) uploads, and
under the spec's reading of the repair routine (an empty string is not a
meaningful repair target, so repairing it does not yield parseable JSON)
it stops before its own POST. -/
theorem C1_single_post (env : Env) (c x : String) (cj xj : Json) (em : String)
    (hc : env.convFile = some c) (hx : env.ctxFile = some x)
    (hbc : pyBlank c = false) (hbx : pyBlank x = false)
    (hjc : env.jsonLoads (env.cleanJson c) = .ok cj)
    (hjx : env.jsonLoads (env.cleanJson x) = .ok xj)
    (h0 : env.jsonLoads (env.cleanJson "") = .error em) :
    countPosts (runApp env) = 1 := by
  rw [runApp_valid hc hx hbc hbx hjc hjx]
  have h1 : countPosts (apiBlock env.jsonLoads env.post1 (Json.obj
      [("conversation", cj), ("context_vectors", xj),
       ("model_type", .str (modelType env.provider)),
       ("model_name", .str env.modelName)])).1 = 1 := apiBlock_posts _ _ _
  have h2 : countPosts (block2 env) = 0 := by
    rw [block2_fail h0]; simp [countPosts, Effect.isPost]
  cases hs : (apiBlock env.jsonLoads env.post1 (Json.obj
      [("conversation", cj), ("context_vectors", xj),
       ("model_type", .str (modelType env.provider)),
       ("model_name", .str env.modelName)])).2 with
  | true => simpa [hs] using h1
  | false => simp [hs, countPosts_append, h1, h2]

/-- Witness for C1 at a concrete environment. -/
theorem C1_single_post_witness :
    pyBlank "{}" = false ∧ countPosts (runApp envOk) = 1 :=
  ⟨by decide, C1_single_post envOk "{}" "{}" (Json.obj []) (Json.obj []) expectValueMsg
    rfl rfl (by decide) (by decide) rfl rfl rfl⟩

/-- C2 counterexample: a failing run (the conversation upload is missing)
whose trace contains an error but not a single progress event — in
particular no terminal reset to 0%, contradicting the claim that every
failing run resets the progress reporter to 0%. -/
theorem C2_counterexample :
    (runApp envMissingFile).any Effect.isErrorMsg = true ∧
    (runApp envMissingFile).any Effect.isReset = false ∧
    progressSeq (runApp envMissingFile) = [] := by
  refine ⟨?_, ?_, ?_⟩ <;> decide

/-- C2 amended: only failures raised as exceptions inside the API try
block (here: a transport error) reset the progress bar to 0%; a non-200
response aborts via st.stop with an error shown but no reset, and
validation failures abort before any progress bar exists. -/
theorem C2_reset_scope (env : Env) (c x : String) (cj xj : Json) (em : String)
    (hc : env.convFile = some c) (hx : env.ctxFile = some x)
    (hbc : pyBlank c = false) (hbx : pyBlank x = false)
    (hjc : env.jsonLoads (env.cleanJson c) = .ok cj)
    (hjx : env.jsonLoads (env.cleanJson x) = .ok xj)
    (h0 : env.jsonLoads (env.cleanJson "") = .error em) :
    (∀ m, env.post1 = .transportError m → (runApp env).any Effect.isReset = true) ∧
    (∀ code text, env.post1 = .response code text → code ≠ 200 →
      (runApp env).any Effect.isReset = false ∧
      (runApp env).any Effect.isErrorMsg = true) := by
  rw [runApp_valid hc hx hbc hbx hjc hjx]
  constructor
  · intro m hm
    rw [hm]
    simp [apiBlock, block2_fail h0, List.any_append, Effect.isReset,
      preTrace, errTrace]
  · intro code text hm hcode
    rw [hm]
    simp [apiBlock, hcode, List.any_append, Effect.isReset, Effect.isErrorMsg,
      preTrace, recvTrace]

/-- Witness for the amended C2 at a concrete transport failure. -/
theorem C2_reset_scope_witness :
    (runApp envTransport).any Effect.isReset = true :=
  (C2_reset_scope envTransport "{}" "{}" (Json.obj []) (Json.obj []) expectValueMsg
    rfl rfl (by decide) (by decide) rfl rfl rfl).1 "Connection refused" rfl

/-- C6: when either upload decodes to an empty or all-whitespace string,
the run fails with the EmptyFile error before any parsing and before any
network call, and never surfaces the MalformedJson validation error. -/
theorem C6_empty_before_parse (env : Env) (c x : String)
    (hc : env.convFile = some c) (hx : env.ctxFile = some x)
    (hblank : pyBlank c = true ∨ pyBlank x = true) :
    countPosts (runApp env) = 0 ∧
    (runApp env).any Effect.isEmptyFileErr = true ∧
    (runApp env).any Effect.isJsonValidationErr = false := by
  by_cases hbc : pyBlank c = true
  · rw [runApp_blankConv hc hx hbc]
    refine ⟨by decide, by decide, by decide⟩
  · have hbc2 : pyBlank c = false := by simpa using hbc
    have hbx : pyBlank x = true := by
      rcases hblank with h | h
      · exact absurd h hbc
      · exact h
    rw [runApp_blankCtx hc hx hbc2 hbx]
    refine ⟨by decide, by decide, by decide⟩

/-- Witness for C6: a whitespace-only conversation upload. -/
theorem C6_empty_before_parse_witness :
    pyBlank "   " = true ∧
    (countPosts (runApp envBlankConv) = 0 ∧
     (runApp envBlankConv).any Effect.isEmptyFileErr = true ∧
     (runApp envBlankConv).any Effect.isJsonValidationErr = false) :=
  ⟨by decide, C6_empty_before_parse envBlankConv "   " "{}" rfl rfl (Or.inl (by decide))⟩

/- ---- Structural lemmas about the context loops and report failure ---- -/

theorem mkRow_eq (i : Nat) (ctx sv u : Json) (q : Rat) (t : String)
    (hs : ctx.getField "similarity_score" = some sv) (hq : sv.asNum = some q)
    (hu : ctx.getField "source_url" = some u)
    (ht : ctx.getField "text" = some (.str t)) :
    mkRow i ctx = .ok
      { idx := i
        sim := fmtFixed 4 q
        url := (if u.truthy then u else .str "N/A")
        text := (if t.length > 100 then t.take 100 ++ "..." else t) } := by
  unfold mkRow
  simp only [hs, hq, hu, ht, Json.asStr]

theorem mkDetail_eq (i : Nat) (ctx sv u : Json) (q : Rat) (t : String)
    (hs : ctx.getField "similarity_score" = some sv) (hq : sv.asNum = some q)
    (hu : ctx.getField "source_url" = some u)
    (ht : ctx.getField "text" = some (.str t)) :
    mkDetail i ctx = .ok (.ctxDetail
      ("Context #" ++ toString i ++ " (Similarity: " ++ fmtFixed 4 q ++ ")")
      ("**Source URL:** " ++ (if u.truthy then pyStr u else "N/A"))
      ("**Text:** " ++ t)) := by
  unfold mkDetail
  simp only [hs, hq, hu, ht, pyStr]

theorem buildCtxRows_length : ∀ (xs : List Json) (i : Nat) (rows : List CtxRow),
    buildCtxRows i xs = .ok rows → rows.length = xs.length := by
  intro xs
  induction xs with
  | nil => intro i rows h; simp [buildCtxRows] at h; subst h; rfl
  | cons c cs ih =>
    intro i rows h
    simp only [buildCtxRows] at h
    cases hm : mkRow i c with
    | error e => rw [hm] at h; exact absurd h (by simp)
    | ok row =>
      rw [hm] at h
      cases hr : buildCtxRows (i + 1) cs with
      | error e => rw [hr] at h; exact absurd h (by simp)
      | ok rows2 =>
        rw [hr] at h
        simp only [Except.ok.injEq] at h
        subst h
        simp [ih (i + 1) rows2 hr]

theorem buildCtxRows_get : ∀ (xs : List Json) (i k : Nat) (rows : List CtxRow)
    (_ : buildCtxRows i xs = .ok rows) (hk : k < xs.length) (hk2 : k < rows.length),
    mkRow (i + k) (xs.get ⟨k, hk⟩) = .ok (rows.get ⟨k, hk2⟩) := by
  intro xs
  induction xs with
  | nil => intro i k rows h hk hk2; exact absurd hk (by simp)
  | cons c cs ih =>
    intro i k rows h hk hk2
    simp only [buildCtxRows] at h
    cases hm : mkRow i c with
    | error e => rw [hm] at h; exact absurd h (by simp)
    | ok row =>
      rw [hm] at h
      cases hr : buildCtxRows (i + 1) cs with
      | error e => rw [hr] at h; exact absurd h (by simp)
      | ok rows2 =>
        rw [hr] at h
        simp only [Except.ok.injEq] at h
        subst h
        cases k with
        | zero => simpa using hm
        | succ k2 =>
          have hk' : k2 < cs.length := by simpa using hk
          have hk2' : k2 < rows2.length := by simpa using hk2
          have := ih (i + 1) k2 rows2 hr hk' hk2'
          simpa [Nat.add_assoc, Nat.add_comm 1 k2] using this

theorem buildCtxDetails_length : ∀ (xs : List Json) (i : Nat) (effs : List Effect),
    buildCtxDetails i xs = .ok effs → effs.length = xs.length := by
  intro xs
  induction xs with
  | nil => intro i effs h; simp [buildCtxDetails] at h; subst h; rfl
  | cons c cs ih =>
    intro i effs h
    simp only [buildCtxDetails] at h
    cases hm : mkDetail i c with
    | error e => rw [hm] at h; exact absurd h (by simp)
    | ok eff =>
      rw [hm] at h
      cases hr : buildCtxDetails (i + 1) cs with
      | error e => rw [hr] at h; exact absurd h (by simp)
      | ok effs2 =>
        rw [hr] at h
        simp only [Except.ok.injEq] at h
        subst h
        simp [ih (i + 1) effs2 hr]

theorem buildCtxDetails_get : ∀ (xs : List Json) (i k : Nat) (effs : List Effect)
    (_ : buildCtxDetails i xs = .ok effs) (hk : k < xs.length) (hk2 : k < effs.length),
    mkDetail (i + k) (xs.get ⟨k, hk⟩) = .ok (effs.get ⟨k, hk2⟩) := by
  intro xs
  induction xs with
  | nil => intro i k effs h hk hk2; exact absurd hk (by simp)
  | cons c cs ih =>
    intro i k effs h hk hk2
    simp only [buildCtxDetails] at h
    cases hm : mkDetail i c with
    | error e => rw [hm] at h; exact absurd h (by simp)
    | ok eff =>
      rw [hm] at h
      cases hr : buildCtxDetails (i + 1) cs with
      | error e => rw [hr] at h; exact absurd h (by simp)
      | ok effs2 =>
        rw [hr] at h
        simp only [Except.ok.injEq] at h
        subst h
        cases k with
        | zero => simpa using hm
        | succ k2 =>
          have hk' : k2 < cs.length := by simpa using hk
          have hk2' : k2 < effs2.length := by simpa using hk2
          have := ih (i + 1) k2 effs2 hr hk' hk2'
          simpa [Nat.add_assoc, Nat.add_comm 1 k2] using this

/-- When the 2xx body lacks `latency_ms` but carries the five fields read
before it, rendering shows the subheader, scores, generated response and
prompt sections, then aborts in the metrics section with the KeyError. -/
theorem renderReport_missing_latency (r : Json) (rel comp acc g p : Json)
    (hrel : r.getField "relevance_score" = some rel)
    (hcomp : r.getField "completeness_score" = some comp)
    (hacc : r.getField "accuracy_score" = some acc)
    (hgen : r.getField "generated_response" = some g)
    (hpr : r.getField "prompt_used" = some p)
    (hlat : r.getField "latency_ms" = none) :
    renderReport r =
      ([Effect.md "📊 Evaluation Report",
        Effect.md "### 📈 Evaluation Scores", Effect.scoresTable rel comp acc,
        Effect.md "### 💬 Generated Response", Effect.infoBox g,
        Effect.md "### 🔤 Prompt Used for Generation", Effect.promptBlock p,
        Effect.md "### ⏱️ Performance Metrics"],
       some (.keyError "latency_ms")) := by
  unfold renderReport renderScores renderGenerated renderPrompt renderMetrics
  rw [hrel, hcomp, hacc, hgen, hpr, hlat]
  rfl

theorem explEntries_eq_map (kvs : List (String × Json)) :
    explEntries kvs = kvs.map fun kv =>
      Effect.explEntry ("📄 " ++ pyTitle (replaceChar '_' ' ' kv.1)) kv.2 := by
  induction kvs with
  | nil => rfl
  | cons kv rest ih => simp [explEntries, ih]


/- ---- Branch equations for the API block ---- -/

theorem apiBlock_transport (loads : String → Except String Json) (p : Json) (m : String) :
    apiBlock loads (.transportError m) p = (preTrace p ++ errTrace m, false) := rfl

theorem apiBlock_non200 (loads : String → Except String Json) (p : Json)
    {code : Nat} (text : String) (h : code ≠ 200) :
    apiBlock loads (.response code text) p =
      (preTrace p ++ recvTrace ++ [.errorMsg (apiErrMsg code text)], true) := by
  simp [apiBlock, h]

theorem apiBlock_decodeFail (loads : String → Except String Json) (p : Json)
    {text m : String} (h : loads text = .error m) :
    apiBlock loads (.response 200 text) p =
      (preTrace p ++ recvTrace ++ errTrace m, false) := by
  simp [apiBlock, h]

theorem apiBlock_renderOk (loads : String → Except String Json) (p : Json)
    {text : String} {result : Json} {res : List Effect}
    (h : loads text = .ok result) (hr : renderReport result = (res, none)) :
    apiBlock loads (.response 200 text) p =
      (preTrace p ++ recvTrace ++ procTrace ++ res, false) := by
  simp [apiBlock, h, hr]

theorem apiBlock_renderFail (loads : String → Except String Json) (p : Json)
    {text : String} {result : Json} {res : List Effect} {e : Exc}
    (h : loads text = .ok result) (hr : renderReport result = (res, some e)) :
    apiBlock loads (.response 200 text) p =
      (preTrace p ++ recvTrace ++ procTrace ++ res ++ errTrace e.msg, false) := by
  simp [apiBlock, h, hr]

theorem progressSeq_preTrace (p : Json) : progressSeq (preTrace p) = [0, 10, 20] := rfl

theorem progressSeq_recvTrace : progressSeq recvTrace = [30] := rfl

theorem progressSeq_procTrace : progressSeq procTrace = [50, 75, 100] := rfl

theorem progressSeq_errTrace (m : String) : progressSeq (errTrace m) = [0] := rfl

theorem preTrace_noRaw (p : Json) : (preTrace p).any Effect.isRawJson = false := rfl

theorem recvTrace_noRaw : recvTrace.any Effect.isRawJson = false := rfl

theorem procTrace_noRaw : procTrace.any Effect.isRawJson = false := rfl

theorem errTrace_noRaw (m : String) : (errTrace m).any Effect.isRawJson = false := rfl

/-- In every execution of the API try block the progress percentages form
the start 0 followed by a prefix of the fixed ladder with at most a final
reset to 0; and when the raw-JSON section was rendered (complete report),
the final emitted percentage is 100. -/
theorem apiBlock_ladder (loads : String → Except String Json) (o : PostOutcome) (p : Json) :
    okSeq (progressSeq (apiBlock loads o p).1) = true ∧
    ((apiBlock loads o p).1.any Effect.isRawJson = true →
      (progressSeq (apiBlock loads o p).1).getLast? = some 100) := by
  cases o with
  | transportError m =>
    rw [apiBlock_transport]
    refine ⟨?_, ?_⟩
    · show okSeq (progressSeq (preTrace p ++ errTrace m)) = true
      rw [progressSeq_append, progressSeq_preTrace, progressSeq_errTrace]
      decide
    · intro h
      have h2 : (preTrace p ++ errTrace m).any Effect.isRawJson = true := h
      rw [List.any_append, preTrace_noRaw, errTrace_noRaw] at h2
      exact absurd h2 (by decide)
  | response code text =>
    by_cases hcode : code = 200
    · subst hcode
      cases hl : loads text with
      | error m =>
        rw [apiBlock_decodeFail loads p hl]
        refine ⟨?_, ?_⟩
        · show okSeq (progressSeq (preTrace p ++ recvTrace ++ errTrace m)) = true
          rw [progressSeq_append, progressSeq_append, progressSeq_preTrace,
            progressSeq_recvTrace, progressSeq_errTrace]
          decide
        · intro h
          have h2 : (preTrace p ++ recvTrace ++ errTrace m).any Effect.isRawJson = true := h
          rw [List.any_append, List.any_append, preTrace_noRaw, recvTrace_noRaw,
            errTrace_noRaw] at h2
          exact absurd h2 (by decide)
      | ok result =>
        rcases hr : renderReport result with ⟨res, exc⟩
        have hresD : res.all Effect.isDisplay = true := by
          have := renderReport_display result
          rw [hr] at this
          exact this
        have hseq : progressSeq res = [] := progressSeq_of_display hresD
        cases exc with
        | none =>
          rw [apiBlock_renderOk loads p hl hr]
          have hs : progressSeq (preTrace p ++ recvTrace ++ procTrace ++ res) =
              [0, 10, 20, 30, 50, 75, 100] := by
            rw [progressSeq_append, progressSeq_append, progressSeq_append,
              progressSeq_preTrace, progressSeq_recvTrace, progressSeq_procTrace, hseq]
            rfl
          refine ⟨?_, ?_⟩
          · show okSeq (progressSeq (preTrace p ++ recvTrace ++ procTrace ++ res)) = true
            rw [hs]
            decide
          · intro _
            show (progressSeq (preTrace p ++ recvTrace ++ procTrace ++ res)).getLast? =
              some 100
            rw [hs]
            decide
        | some e =>
          rw [apiBlock_renderFail loads p hl hr]
          have hnr : res.any Effect.isRawJson = false := by
            apply any_false_of_all_not
            have h2 : (renderReport result).2 ≠ none := by rw [hr]; simp
            have h3 := renderReport_fail_noRaw result h2
            rw [hr] at h3
            exact h3
          refine ⟨?_, ?_⟩
          · show okSeq (progressSeq
              (preTrace p ++ recvTrace ++ procTrace ++ res ++ errTrace (Exc.msg e))) = true
            rw [progressSeq_append, progressSeq_append, progressSeq_append,
              progressSeq_append, progressSeq_preTrace, progressSeq_recvTrace,
              progressSeq_procTrace, progressSeq_errTrace, hseq]
            decide
          · intro h
            have h2 : (preTrace p ++ recvTrace ++ procTrace ++ res ++
                errTrace (Exc.msg e)).any Effect.isRawJson = true := h
            rw [List.any_append, List.any_append, List.any_append, List.any_append,
              preTrace_noRaw, recvTrace_noRaw, procTrace_noRaw, errTrace_noRaw, hnr] at h2
            exact absurd h2 (by decide)
    · rw [apiBlock_non200 loads p text hcode]
      refine ⟨?_, ?_⟩
      · show okSeq (progressSeq
          (preTrace p ++ recvTrace ++ [Effect.errorMsg (apiErrMsg code text)])) = true
        rw [progressSeq_append, progressSeq_append, progressSeq_preTrace,
          progressSeq_recvTrace,
          show progressSeq [Effect.errorMsg (apiErrMsg code text)] = [] from rfl]
        decide
      · intro h
        have h2 : (preTrace p ++ recvTrace ++
            [Effect.errorMsg (apiErrMsg code text)]).any Effect.isRawJson = true := h
        rw [List.any_append, List.any_append, preTrace_noRaw, recvTrace_noRaw,
          show ([Effect.errorMsg (apiErrMsg code text)].any Effect.isRawJson) = false
            from rfl] at h2
        exact absurd h2 (by decide)

theorem preTrace_noErrEq (p : Json) (s : String) :
    (preTrace p).any (Effect.isErrEq s) = false := rfl

theorem recvTrace_noErrEq (s : String) : recvTrace.any (Effect.isErrEq s) = false := rfl

theorem procTrace_noErrEq (s : String) : procTrace.any (Effect.isErrEq s) = false := rfl

theorem errTrace_errEq (m s : String) :
    (errTrace m).any (Effect.isErrEq s) = (backendErrMsg m == s) := by
  simp [errTrace, Effect.isErrEq]

/-- C7: the progress percentages of any single run are the ladder stages
10, 20, 30, 50, 75, 100 (besides the start-at-0 and the reset-to-0 on
error), never decreasing except for that explicit reset, and a run that
renders the complete report ends at 100.  Uses the spec's reading of the
repair routine on the empty re-read of the uploads. -/
theorem C7_progress_ladder (env : Env) (em : String)
    (h0 : env.jsonLoads (env.cleanJson "") = .error em) :
    okSeq (progressSeq (runApp env)) = true ∧
    ((runApp env).any Effect.isRawJson = true →
      (progressSeq (runApp env)).getLast? = some 100) := by
  rcases hc : env.convFile with _ | c
  · rw [runApp_noConv hc]
    exact ⟨by decide, fun h => absurd h (by decide)⟩
  rcases hx : env.ctxFile with _ | x
  · rw [runApp_noCtx hc hx]
    exact ⟨by decide, fun h => absurd h (by decide)⟩
  by_cases hbc : pyBlank c = true
  · rw [runApp_blankConv hc hx hbc]
    exact ⟨by decide, fun h => absurd h (by decide)⟩
  have hbc2 : pyBlank c = false := by simpa using hbc
  by_cases hbx : pyBlank x = true
  · rw [runApp_blankCtx hc hx hbc2 hbx]
    exact ⟨by decide, fun h => absurd h (by decide)⟩
  have hbx2 : pyBlank x = false := by simpa using hbx
  cases hjc : env.jsonLoads (env.cleanJson c) with
  | error m =>
    rw [runApp_parseFailConv hc hx hbc2 hbx2 hjc]
    refine ⟨?_, ?_⟩
    · rw [show progressSeq [Effect.errorMsg (jsonValErrMsg m), Effect.infoMsg jsonTipMsg]
        = [] from rfl]
      decide
    · intro h
      rw [show ([Effect.errorMsg (jsonValErrMsg m),
        Effect.infoMsg jsonTipMsg].any Effect.isRawJson) = false from rfl] at h
      exact absurd h (by decide)
  | ok cj =>
    cases hjx : env.jsonLoads (env.cleanJson x) with
    | error m =>
      rw [runApp_parseFailCtx hc hx hbc2 hbx2 hjc hjx]
      refine ⟨?_, ?_⟩
      · rw [show progressSeq [Effect.errorMsg (jsonValErrMsg m), Effect.infoMsg jsonTipMsg]
          = [] from rfl]
        decide
      · intro h
        rw [show ([Effect.errorMsg (jsonValErrMsg m),
          Effect.infoMsg jsonTipMsg].any Effect.isRawJson) = false from rfl] at h
        exact absurd h (by decide)
    | ok xj =>
      rw [runApp_valid hc hx hbc2 hbx2 hjc hjx]
      have hL := apiBlock_ladder env.jsonLoads env.post1 (Json.obj
        [("conversation", cj), ("context_vectors", xj),
         ("model_type", .str (modelType env.provider)),
         ("model_name", .str env.modelName)])
      cases hB : (apiBlock env.jsonLoads env.post1 (Json.obj
        [("conversation", cj), ("context_vectors", xj),
         ("model_type", .str (modelType env.provider)),
         ("model_name", .str env.modelName)])).2 with
      | true => simpa [hB] using hL
      | false =>
        simp only [hB, Bool.false_eq_true, if_false, reduceIte]
        rw [block2_fail h0]
        refine ⟨?_, ?_⟩
        · rw [progressSeq_append,
            show progressSeq [Effect.errorMsg ("⚠️ " ++ em)] = [] from rfl,
            List.append_nil]
          exact hL.1
        · intro h
          rw [List.any_append,
            show ([Effect.errorMsg ("⚠️ " ++ em)].any Effect.isRawJson) = false from rfl,
            Bool.or_false] at h
          rw [progressSeq_append,
            show progressSeq [Effect.errorMsg ("⚠️ " ++ em)] = [] from rfl,
            List.append_nil]
          exact hL.2 h

/-- Witness for C7 at a concrete successful environment. -/
theorem C7_progress_ladder_witness :
    okSeq (progressSeq (runApp envOk)) = true ∧
    ((runApp envOk).any Effect.isRawJson = true →
      (progressSeq (runApp envOk)).getLast? = some 100) :=
  C7_progress_ladder envOk expectValueMsg rfl

/-- C3 counterexample: a concrete run whose 2xx response lacks
`latency_ms`: the run fails (the generic backend error for the KeyError
appears, no raw-JSON section is reached) yet the scores section has
already been displayed — a partial report is shown. -/
theorem C3_counterexample :
    (runApp envMissingLat).any Effect.isScoresTable = true ∧
    (runApp envMissingLat).any
      (Effect.isErrEq (backendErrMsg (pyQuote ++ "latency_ms" ++ pyQuote))) = true ∧
    (runApp envMissingLat).any Effect.isRawJson = false := by
  refine ⟨by decide, by decide, by decide⟩

/-- C3 amended: a failure during report assembly aborts the remaining
sections (metrics onward are never rendered), but the sections already
rendered before the failing field access — scores, generated response,
prompt — remain displayed. -/
theorem C3_aborted_render (r rel comp acc g p : Json)
    (hrel : r.getField "relevance_score" = some rel)
    (hcomp : r.getField "completeness_score" = some comp)
    (hacc : r.getField "accuracy_score" = some acc)
    (hgen : r.getField "generated_response" = some g)
    (hpr : r.getField "prompt_used" = some p)
    (hlat : r.getField "latency_ms" = none) :
    (renderReport r).2 = some (.keyError "latency_ms") ∧
    (renderReport r).1.any Effect.isScoresTable = true ∧
    (renderReport r).1.any Effect.isInfoBox = true ∧
    (renderReport r).1.any Effect.isPromptBlock = true ∧
    (renderReport r).1.any Effect.isMetricsTable = false ∧
    (renderReport r).1.any Effect.isHalTable = false ∧
    (renderReport r).1.any Effect.isCtxTable = false ∧
    (renderReport r).1.any Effect.isCtxDetail = false ∧
    (renderReport r).1.any Effect.isExplEntry = false ∧
    (renderReport r).1.any Effect.isRawJson = false := by
  rw [renderReport_missing_latency r rel comp acc g p hrel hcomp hacc hgen hpr hlat]
  refine ⟨rfl, ?_, ?_, ?_, ?_, ?_, ?_, ?_, ?_, ?_⟩ <;>
    simp [Effect.isScoresTable, Effect.isInfoBox, Effect.isPromptBlock,
      Effect.isMetricsTable, Effect.isHalTable, Effect.isCtxTable, Effect.isCtxDetail,
      Effect.isExplEntry, Effect.isRawJson]

/-- Witness for the amended C3 at the concrete truncated body. -/
theorem C3_aborted_render_witness :
    (renderReport reportMissingLatency).2 = some (.keyError "latency_ms") ∧
    (renderReport reportMissingLatency).1.any Effect.isScoresTable = true ∧
    (renderReport reportMissingLatency).1.any Effect.isInfoBox = true ∧
    (renderReport reportMissingLatency).1.any Effect.isPromptBlock = true ∧
    (renderReport reportMissingLatency).1.any Effect.isMetricsTable = false ∧
    (renderReport reportMissingLatency).1.any Effect.isHalTable = false ∧
    (renderReport reportMissingLatency).1.any Effect.isCtxTable = false ∧
    (renderReport reportMissingLatency).1.any Effect.isCtxDetail = false ∧
    (renderReport reportMissingLatency).1.any Effect.isExplEntry = false ∧
    (renderReport reportMissingLatency).1.any Effect.isRawJson = false :=
  C3_aborted_render reportMissingLatency (.num 8) (.num 7) (.num 9)
    (.str "generated") (.str "prompt") rfl rfl rfl rfl rfl rfl

/-- C4 counterexample: the run whose 2xx body lacks `latency_ms` and a
run with a transport failure surface the very same operator-visible
error message (the generic backend-error handler formats both), so the
missing-field case is not distinguished from transport errors. -/
theorem C4_counterexample :
    (runApp envMissingLat).any
      (Effect.isErrEq (backendErrMsg (pyQuote ++ "latency_ms" ++ pyQuote))) = true ∧
    (runApp envTransportQ).any
      (Effect.isErrEq (backendErrMsg (pyQuote ++ "latency_ms" ++ pyQuote))) = true := by
  refine ⟨by decide, by decide⟩

/-- C4 amended: a 2xx response lacking a required field raises a KeyError
carrying the field name; it is caught by the same generic handler as
transport errors and surfaced as the backend-error message containing the
quoted field name, with the progress bar reset to 0 — there is no
distinct MalformedResponse classification. -/
theorem C4_missing_field_generic (loads : String → Except String Json) (payload : Json)
    (text : String) (r rel comp acc g p : Json)
    (hload : loads text = .ok r)
    (hrel : r.getField "relevance_score" = some rel)
    (hcomp : r.getField "completeness_score" = some comp)
    (hacc : r.getField "accuracy_score" = some acc)
    (hgen : r.getField "generated_response" = some g)
    (hpr : r.getField "prompt_used" = some p)
    (hlat : r.getField "latency_ms" = none) :
    (apiBlock loads (.response 200 text) payload).1.any
      (Effect.isErrEq (backendErrMsg (pyQuote ++ "latency_ms" ++ pyQuote))) = true ∧
    (apiBlock loads (.response 200 text) payload).1.any Effect.isReset = true := by
  rw [apiBlock_renderFail loads payload hload
    (renderReport_missing_latency r rel comp acc g p hrel hcomp hacc hgen hpr hlat)]
  constructor <;>
    simp [List.any_append, errTrace, Exc.msg, Effect.isErrEq, Effect.isReset]

/-- Witness for the amended C4 at the concrete truncated body. -/
theorem C4_missing_field_generic_witness :
    (apiBlock sampleLoads (.response 200 "MISSING") (Json.obj [])).1.any
      (Effect.isErrEq (backendErrMsg (pyQuote ++ "latency_ms" ++ pyQuote))) = true ∧
    (apiBlock sampleLoads (.response 200 "MISSING") (Json.obj [])).1.any
      Effect.isReset = true :=
  C4_missing_field_generic sampleLoads (Json.obj []) "MISSING" reportMissingLatency
    (.num 8) (.num 7) (.num 9) (.str "generated") (.str "prompt")
    rfl rfl rfl rfl rfl rfl rfl

/-- C5 counterexample: status 201 — a 2xx success status with a decodable
full body — is treated as an API error: the ApiError message is shown and
no report is rendered, contradicting "any 2xx status proceeds". -/
theorem C5_counterexample :
    (runApp env201).any (Effect.isErrEq (apiErrMsg 201 "created")) = true ∧
    (runApp env201).any Effect.isScoresTable = false ∧
    (runApp env201).any Effect.isRawJson = false := by
  refine ⟨by decide, by decide, by decide⟩

/-- C5 amended: the run fails with the ApiError message (status code plus
raw body) exactly when the status differs from 200; only exactly 200
proceeds to decoding the body. -/
theorem C5_api_error_iff (loads : String → Except String Json) (payload : Json)
    (code : Nat) (text : String) :
    ((apiBlock loads (.response code text) payload).1.any
      (Effect.isErrEq (apiErrMsg code text)) = true) ↔ code ≠ 200 := by
  constructor
  · intro h hcode
    subst hcode
    have hne : ∀ m2 : String, (backendErrMsg m2 == apiErrMsg 200 text) = false :=
      fun m2 => beq_eq_false_iff_ne.mpr (backendErrMsg_ne_apiErrMsg m2 200 text)
    cases hl : loads text with
    | error m =>
      rw [apiBlock_decodeFail loads payload hl] at h
      have h2 : (preTrace payload ++ recvTrace ++ errTrace m).any
          (Effect.isErrEq (apiErrMsg 200 text)) = true := h
      rw [List.any_append, List.any_append, preTrace_noErrEq, recvTrace_noErrEq,
        errTrace_errEq, hne m] at h2
      exact absurd h2 (by decide)
    | ok result =>
      rcases hr : renderReport result with ⟨res, exc⟩
      have hresD : res.all Effect.isDisplay = true := by
        have := renderReport_display result
        rw [hr] at this
        exact this
      have hno : res.any (Effect.isErrEq (apiErrMsg 200 text)) = false :=
        no_errEq_of_display hresD _
      cases exc with
      | none =>
        rw [apiBlock_renderOk loads payload hl hr] at h
        have h2 : (preTrace payload ++ recvTrace ++ procTrace ++ res).any
            (Effect.isErrEq (apiErrMsg 200 text)) = true := h
        rw [List.any_append, List.any_append, List.any_append, preTrace_noErrEq,
          recvTrace_noErrEq, procTrace_noErrEq, hno] at h2
        exact absurd h2 (by decide)
      | some e =>
        rw [apiBlock_renderFail loads payload hl hr] at h
        have h2 : (preTrace payload ++ recvTrace ++ procTrace ++ res ++
            errTrace (Exc.msg e)).any (Effect.isErrEq (apiErrMsg 200 text)) = true := h
        rw [List.any_append, List.any_append, List.any_append, List.any_append,
          preTrace_noErrEq, recvTrace_noErrEq, procTrace_noErrEq, hno,
          errTrace_errEq, hne (Exc.msg e)] at h2
        exact absurd h2 (by decide)
  · intro hcode
    rw [apiBlock_non200 loads payload text hcode]
    show (preTrace payload ++ recvTrace ++
      [Effect.errorMsg (apiErrMsg code text)]).any (Effect.isErrEq (apiErrMsg code text)) = true
    rw [List.any_append, List.any_append, preTrace_noErrEq, recvTrace_noErrEq]
    simp [Effect.isErrEq]

/-- Witness for the amended C5 at the spec's scenario B (status 500,
body "internal error"). -/
theorem C5_api_error_iff_witness :
    (apiBlock sampleLoads (.response 500 "internal error") (Json.obj [])).1.any
      (Effect.isErrEq (apiErrMsg 500 "internal error")) = true :=
  (C5_api_error_iff sampleLoads (Json.obj []) 500 "internal error").mpr (by decide)

/-- C8: for every item of the retrieved-context sequence, the table shows
the text unchanged when its length is at most 100 and the first 100
characters followed by the ellipsis marker otherwise, while the
full-details entry for the same position always carries the complete
untruncated text, and the URL when it is present and non-empty. -/
theorem C8_truncation (xs : List Json) (rows : List CtxRow) (effs : List Effect)
    (k : Nat) (sv u : Json) (q : Rat) (t : String)
    (hrows : buildCtxRows 1 xs = .ok rows)
    (heffs : buildCtxDetails 1 xs = .ok effs)
    (hk : k < xs.length) (hk2 : k < rows.length) (hk3 : k < effs.length)
    (hs : (xs.get ⟨k, hk⟩).getField "similarity_score" = some sv)
    (hq : sv.asNum = some q)
    (hu : (xs.get ⟨k, hk⟩).getField "source_url" = some u)
    (ht : (xs.get ⟨k, hk⟩).getField "text" = some (.str t)) :
    (rows.get ⟨k, hk2⟩).text = (if t.length ≤ 100 then t else t.take 100 ++ "...") ∧
    (effs.get ⟨k, hk3⟩).detailTextLine = some ("**Text:** " ++ t) ∧
    (u.truthy = true → (effs.get ⟨k, hk3⟩).detailUrlLine =
      some ("**Source URL:** " ++ pyStr u)) := by
  have h1 := buildCtxRows_get xs 1 k rows hrows hk hk2
  rw [mkRow_eq (1 + k) (xs.get ⟨k, hk⟩) sv u q t hs hq hu ht] at h1
  have h2 := buildCtxDetails_get xs 1 k effs heffs hk hk3
  rw [mkDetail_eq (1 + k) (xs.get ⟨k, hk⟩) sv u q t hs hq hu ht] at h2
  injection h1 with h1
  injection h2 with h2
  refine ⟨?_, ?_, ?_⟩
  · rw [← h1]
    by_cases hlen : t.length ≤ 100
    · have hgt : ¬ (t.length > 100) := by omega
      simp [hlen, hgt]
    · have hgt : t.length > 100 := by omega
      simp [hlen, hgt]
  · rw [← h2]
    rfl
  · intro htr
    rw [← h2]
    simp [Effect.detailUrlLine, htr]

set_option maxRecDepth 8000 in
/-- Witness for C8 on a 150-character text: the table keeps 100
characters plus the ellipsis, the details entry keeps all 150. -/
theorem C8_truncation_witness :
    (rows150.get ⟨0, by decide⟩).text =
      (if longText.length ≤ 100 then longText else longText.take 100 ++ "...") ∧
    (effs150.get ⟨0, by decide⟩).detailTextLine = some ("**Text:** " ++ longText) ∧
    ((Json.str "http://src").truthy = true →
      (effs150.get ⟨0, by decide⟩).detailUrlLine =
        some ("**Source URL:** " ++ pyStr (Json.str "http://src"))) :=
  C8_truncation [ctxItem150] rows150 effs150 0 (Json.num 1) (Json.str "http://src") 1
    longText (by rfl) (by rfl) (by decide) (by decide) (by decide) rfl rfl rfl rfl

/-- C9 counterexample: on a report whose explanations mapping is empty,
the explanations section header is still rendered — the section is not
omitted entirely. -/
theorem C9_counterexample :
    fullReportJson.getField "explanations" = some (Json.obj []) ∧
    (renderReport fullReportJson).1.any
      (Effect.isMdEq "### 📝 Evaluation Explanations") = true :=
  ⟨rfl, by decide⟩

/-- C9 amended: the explanations section header is always rendered; the
entries are omitted exactly when the mapping is empty, and otherwise
there is one entry per key, titled by the decorated key with underscores
replaced by spaces and each word capitalized, with the explanation value
verbatim as content. -/
theorem C9_explanations_section (r : Json) (kvs : List (String × Json))
    (h : r.getField "explanations" = some (.obj kvs)) :
    renderExplanations r =
      ([Effect.md "### 📝 Evaluation Explanations"] ++
        kvs.map (fun kv =>
          Effect.explEntry ("📄 " ++ pyTitle (replaceChar '_' ' ' kv.1)) kv.2),
       none) := by
  unfold renderExplanations
  simp only [h]
  cases kvs with
  | nil => simp [Json.truthy, explEntries]
  | cons kv rest => simp [Json.truthy, explEntries_eq_map]

/-- Witness for the amended C9: the key context_relevance is titled
Context Relevance. -/
theorem C9_explanations_section_witness :
    renderExplanations
      (Json.obj [("explanations", Json.obj [("context_relevance", Json.str "ok")])]) =
      ([Effect.md "### 📝 Evaluation Explanations",
        Effect.explEntry "📄 Context Relevance" (Json.str "ok")], none) := by
  have h := C9_explanations_section
    (Json.obj [("explanations", Json.obj [("context_relevance", Json.str "ok")])])
    [("context_relevance", Json.str "ok")] rfl
  rw [h]
  rfl

/-- C10: when the source_url field is present but falsy (empty string,
null, or any other falsy value), both the table row and the full-details
line show the N/A sentinel — the substitution is decided by truthiness. -/
theorem C10_url_falsy (i : Nat) (ctx sv u : Json) (q : Rat) (t : String)
    (hs : ctx.getField "similarity_score" = some sv) (hq : sv.asNum = some q)
    (hu : ctx.getField "source_url" = some u)
    (ht : ctx.getField "text" = some (.str t))
    (hfalsy : u.truthy = false) :
    mkRow i ctx = .ok
      { idx := i
        sim := fmtFixed 4 q
        url := Json.str "N/A"
        text := (if t.length > 100 then t.take 100 ++ "..." else t) } ∧
    mkDetail i ctx = .ok (.ctxDetail
      ("Context #" ++ toString i ++ " (Similarity: " ++ fmtFixed 4 q ++ ")")
      "**Source URL:** N/A" ("**Text:** " ++ t)) := by
  constructor
  · rw [mkRow_eq i ctx sv u q t hs hq hu ht, hfalsy]
    rfl
  · rw [mkDetail_eq i ctx sv u q t hs hq hu ht, hfalsy]
    rfl

/-- Witness for C10 on an item whose source_url is the empty string. -/
theorem C10_url_falsy_witness :
    mkRow 1 ctxEmptyUrl = .ok
      { idx := 1, sim := "1.0000", url := Json.str "N/A", text := "abc" } ∧
    mkDetail 1 ctxEmptyUrl = .ok (.ctxDetail "Context #1 (Similarity: 1.0000)"
      "**Source URL:** N/A" "**Text:** abc") := by
  have h := C10_url_falsy 1 ctxEmptyUrl (Json.num 1) (Json.str "") 1 "abc"
    rfl rfl rfl rfl rfl
  exact ⟨h.1, h.2⟩
